import Mathlib

/-
Verification of the BioSync client-side multi-factor validation state machine
(src/unnamed/part_003, the "Biometric Animation Script").

The JavaScript module keeps three per-factor maps (validatedBiometrics,
sessionValidations, validatedUserIds) in memory, mirrors them into
localStorage, keeps security-violation markers and the welcome flag in
sessionStorage, and drives the car-door animation.  We embed the module
shallowly: the in-memory variables, the two browser stores and the
synchronous effects of each operation become explicit state passing;
scheduled asynchronous effects (the delayed redirect, the animation chain)
are recorded as boolean fields of an outcome record.
-/

namespace BioSync

/-- JavaScript primitive values that occur as biometric user identifiers in
this module: the server may deliver a number, the client may store a string.
Strict equality on these values is structural (a number is never strictly
equal to a string). -/
inductive JSVal where
  | num : Int → JSVal
  | str : String → JSVal
deriving DecidableEq

/-- JavaScript coercion String(x) applied to an identifier, as used by
doValidatedBiometricsMatchSameUser (line 54 of the source). -/
def JSVal.jsString : JSVal → String
  | .num n => toString n
  | .str s => s

/-- The closed set of biometric factors: the own keys of the three state
objects, in their creation order (lines 9-32 of the source). -/
inductive Factor where
  | face
  | voice
  | retina
  | proximity
deriving DecidableEq, Fintype

/-- Enumeration order used by for..in / Object.entries / Object.keys on the
three state objects: insertion order of the object literals. -/
def Factor.all : List Factor := [.face, .voice, .retina, .proximity]

/-- A per-factor map, the shape of the three JavaScript state objects
(own properties face, voice, retina, proximity). -/
structure FMap (α : Type) where
  face : α
  voice : α
  retina : α
  proximity : α
deriving DecidableEq

/-- Property read obj[f] for a known factor key. -/
def FMap.get {α : Type} (m : FMap α) : Factor → α
  | .face => m.face
  | .voice => m.voice
  | .retina => m.retina
  | .proximity => m.proximity

/-- Property write obj[f] = v for a known factor key. -/
def FMap.set {α : Type} (m : FMap α) : Factor → α → FMap α
  | .face, v => { m with face := v }
  | .voice, v => { m with voice := v }
  | .retina, v => { m with retina := v }
  | .proximity, v => { m with proximity := v }

/-- Constant per-factor map. -/
def FMap.const {α : Type} (v : α) : FMap α := ⟨v, v, v, v⟩

/-- In-memory module variables: validatedBiometrics (line 9),
sessionValidations (line 18), validatedUserIds (line 27) and
animationVisible (line 72).  A userId of none models JavaScript null. -/
structure Mem where
  validatedBiometrics : FMap Bool
  sessionValidations : FMap Bool
  validatedUserIds : FMap (Option JSVal)
  animationVisible : Bool
deriving DecidableEq

/-- The localStorage keys the module uses.  Each field holds the last JSON
value written under that key (none when the key is absent);
validatedUserData is the cached full user/vehicle bundle, kept opaque. -/
structure LocalStore where
  validatedBiometrics : Option (FMap Bool)
  sessionValidations : Option (FMap Bool)
  validatedUserIds : Option (FMap (Option JSVal))
  validatedUserData : Option String
deriving DecidableEq

/-- The sessionStorage keys the module uses: the security-violation marker
and its two diagnostic payloads (the mismatched-id list written by the
checker at line 65, and the per-factor id association written by the two
violation branches at lines 180 and 362), plus has_shown_biometric_welcome. -/
structure SessionStore where
  violation : Bool
  mismatchIds : Option (List JSVal)
  violationDetails : Option (List (Factor × Option JSVal))
  welcomeShown : Bool
deriving DecidableEq

/-- The whole synchronous state seen by the module: in-memory variables plus
the two browser stores. -/
structure St where
  mem : Mem
  localStore : LocalStore
  sessionStore : SessionStore
deriving DecidableEq

/-- Default all-false per-factor map, the fallback object literal of
lines 9-14 and 18-23. -/
def defaultFlags : FMap Bool := FMap.const false

/-- Default all-null user-id map, the fallback object literal of
lines 27-32. -/
def defaultUserIds : FMap (Option JSVal) := FMap.const none

/-- countValidatedBiometrics (lines 75-83): number of factors whose
validatedBiometrics flag is true. -/
def countValidatedBiometrics (m : Mem) : Nat :=
  (Factor.all.filter (fun f => m.validatedBiometrics.get f)).length

/-- countSessionValidations (lines 86-88): number of true sessionValidations
flags. -/
def countSessionValidations (m : Mem) : Nat :=
  (Factor.all.filter (fun f => m.sessionValidations.get f)).length

/-- The id-collection step of doValidatedBiometricsMatchSameUser
(lines 41-43): user ids of the factors whose validated flag is true and
whose stored id is not null, in enumeration order. -/
def collectValidatedUserIds (m : Mem) : List JSVal :=
  Factor.all.filterMap
    (fun f => if m.validatedBiometrics.get f then m.validatedUserIds.get f else none)

/-- The boolean result of doValidatedBiometricsMatchSameUser (lines 46-55):
true when at most one id was collected, otherwise every collected id must
equal the first one after String() coercion. -/
def usersMatchPure (m : Mem) : Bool :=
  match collectValidatedUserIds m with
  | [] => true
  | [_] => true
  | first :: rest => (first :: rest).all (fun u => u.jsString == first.jsString)

/-- doValidatedBiometricsMatchSameUser (lines 39-69), with its
write-on-mismatch side effect: when the collected ids disagree it sets the
biometric_security_violation flag and stores the mismatched id list in
sessionStorage (lines 64-65) before returning false. -/
def doValidatedBiometricsMatchSameUser (s : St) : Bool × St :=
  let allMatch := usersMatchPure s.mem
  if allMatch then (true, s)
  else
    (false,
      { s with
          sessionStore :=
            { s.sessionStore with
                violation := true
                mismatchIds := some (collectValidatedUserIds s.mem) } })

/-- resetBiometricValidations (lines 219-248): zero all three in-memory maps
and animationVisible, persist the zeroed maps to localStorage, remove the
cached validatedUserData, and remove has_shown_biometric_welcome from
sessionStorage.  The violation marker keys are not touched. -/
def resetBiometricValidations (s : St) : St :=
  { mem :=
      { validatedBiometrics := defaultFlags
        sessionValidations := defaultFlags
        validatedUserIds := defaultUserIds
        animationVisible := false }
    localStore :=
      { validatedBiometrics := some defaultFlags
        sessionValidations := some defaultFlags
        validatedUserIds := some defaultUserIds
        validatedUserData := none }
    sessionStore := { s.sessionStore with welcomeShown := false } }

/-- resetSessionValidations (lines 251-263): zero the sessionValidations map,
persist it, and remove has_shown_biometric_welcome; everything else is kept. -/
def resetSessionValidations (s : St) : St :=
  { s with
      mem := { s.mem with sessionValidations := defaultFlags }
      localStore := { s.localStore with sessionValidations := some defaultFlags }
      sessionStore := { s.sessionStore with welcomeShown := false } }

/-- Result of a call to showCarDoorAnimation: blocked is true on the
internal security branch (lines 348-399), in which case a redirect to
/?security_violation=true was scheduled and the state was reset; blocked is
false when the overlay was shown (animationVisible set true, line 411). -/
def showCarDoorAnimation (s : St) : St × Bool :=
  let checked := doValidatedBiometricsMatchSameUser s
  let securityCheck := checked.1
  let s1 := checked.2
  let validatedTypes := Factor.all.filter (fun f => s1.mem.validatedBiometrics.get f)
  let biometricUserIds := validatedTypes.map (fun f => s1.mem.validatedUserIds.get f)
  let strictMismatch :=
    biometricUserIds.any (fun id => id != biometricUserIds.headD none)
  if !securityCheck || strictMismatch then
    let s2 :=
      { s1 with
          sessionStore :=
            { s1.sessionStore with
                violation := true
                violationDetails :=
                  some (validatedTypes.map (fun f => (f, s1.mem.validatedUserIds.get f))) } }
    (resetBiometricValidations s2, true)
  else
    ({ s1 with mem := { s1.mem with animationVisible := true } }, false)

/-- The store-update phase of setBiometricValidated (lines 99-114): set the
validated flag; on validation mark the session flag and, only when a
non-null userId was supplied, overwrite the stored id; on invalidation
clear the stored id. -/
def applyValidation (m : Mem) (type : Factor) (isValidated : Bool)
    (userId : Option JSVal) : Mem :=
  let m1 := { m with validatedBiometrics := m.validatedBiometrics.set type isValidated }
  if isValidated then
    let m2 := { m1 with sessionValidations := m1.sessionValidations.set type true }
    match userId with
    | some uid => { m2 with validatedUserIds := m2.validatedUserIds.set type (some uid) }
    | none => m2
  else
    { m1 with validatedUserIds := m1.validatedUserIds.set type none }

/-- Observable outcome of one setBiometricValidated call: animTriggered is
true when the success branch invoked showCarDoorAnimation (line 164);
violationBranch is true on the explicit security-violation branch
(lines 165-201); animBlocked is true when the invoked animation blocked
itself on its internal check; redirectScheduled is true when either
violation path scheduled the delayed navigation to
/?security_violation=true. -/
structure CallOutcome where
  animTriggered : Bool
  violationBranch : Bool
  animBlocked : Bool
  redirectScheduled : Bool
deriving DecidableEq

/-- setBiometricValidated (lines 91-216) for a factor in the closed set, for
which the typeof guard of line 92 always passes: update the maps, persist
them (the user-id map only when lines 107 or 113 ran), run the consistency
check, then take the success-animation branch, the security-violation
branch (record diagnostics, reset everything, schedule the redirect), or
log-and-do-nothing. -/
def setBiometricValidated (s : St) (type : Factor) (isValidated : Bool)
    (userId : Option JSVal) : St × CallOutcome :=
  let isNewSessionValidation := !s.mem.sessionValidations.get type && isValidated
  let m := applyValidation s.mem type isValidated userId
  let persistedIds := !isValidated || userId.isSome
  let s1 : St :=
    { s with
        mem := m
        localStore :=
          { s.localStore with
              validatedBiometrics := some m.validatedBiometrics
              sessionValidations := some m.sessionValidations
              validatedUserIds :=
                if persistedIds then some m.validatedUserIds
                else s.localStore.validatedUserIds } }
  let validCount := countValidatedBiometrics m
  let sessionCount := countSessionValidations m
  let checked := doValidatedBiometricsMatchSameUser s1
  let doUsersMatch := checked.1
  let s2 := checked.2
  if decide (2 ≤ validCount) && !s2.mem.animationVisible &&
      isNewSessionValidation && decide (2 ≤ sessionCount) && doUsersMatch then
    let shown := showCarDoorAnimation s2
    (shown.1, ⟨true, false, shown.2, shown.2⟩)
  else if decide (2 ≤ validCount) && !doUsersMatch then
    let details :=
      (Factor.all.filter (fun f => m.validatedBiometrics.get f)).map
        (fun f => (f, m.validatedUserIds.get f))
    let s3 :=
      { s2 with
          sessionStore :=
            { s2.sessionStore with violation := true, violationDetails := some details } }
    (resetBiometricValidations s3, ⟨false, true, false, true⟩)
  else
    (s2, ⟨false, false, false, false⟩)

/-- Module initialization (lines 9-32): load the three maps from
localStorage, falling back to the all-false / all-null literals when a key
is absent; animationVisible starts false. -/
def initialMem (l : LocalStore) : Mem :=
  { validatedBiometrics := l.validatedBiometrics.getD defaultFlags
    sessionValidations := l.sessionValidations.getD defaultFlags
    validatedUserIds := l.validatedUserIds.getD defaultUserIds
    animationVisible := false }

/-- The state right after the module script runs against the given stores. -/
def moduleInit (l : LocalStore) (ss : SessionStore) : St :=
  { mem := initialMem l, localStore := l, sessionStore := ss }

/-- Empty localStorage: no key the module uses is present. -/
def emptyLocalStore : LocalStore := ⟨none, none, none, none⟩

/-- Empty sessionStorage: no violation marker, welcome not shown. -/
def emptySessionStore : SessionStore := ⟨false, none, none, false⟩

/-- A clean initial state: first visit, both stores empty. -/
def cleanState : St := moduleInit emptyLocalStore emptySessionStore

/-- The page-load replay decision of the DOMContentLoaded handler
(lines 610-646): it re-reads sessionValidations from localStorage (default
all-false), and shows the animation exactly when at least two factors are
validated, the animation is not visible, and at least two session flags are
set. -/
def pageLoadShowsAnimation (s : St) : Bool :=
  let validCount := countValidatedBiometrics s.mem
  let sv := s.localStore.sessionValidations.getD defaultFlags
  let sessionCount := (Factor.all.filter (fun f => sv.get f)).length
  decide (2 ≤ validCount) && !s.mem.animationVisible && decide (2 ≤ sessionCount)

/-- Modelled from the spec: browser storage semantics, which are not part of
the repository source.  Ending the browser session clears sessionStorage
but leaves localStorage intact; the next page load re-runs module
initialization (lines 9-32) against the surviving localStorage. -/
def sessionEndAndReload (s : St) : St :=
  moduleInit s.localStore emptySessionStore

/-- The no-stale-identity invariant of the data model: a factor carries a
stored user id only while its validated flag is true. -/
def UserIdInvariant (m : Mem) : Prop :=
  ∀ f : Factor, (m.validatedUserIds.get f).isSome = true →
    m.validatedBiometrics.get f = true

/-- Transcription of the spec sentence describing the Consistency Checker
collection step: the user ids of every factor whose validated flag is true
and whose userId is non-null, all other factors ignored.  Stated
independently of collectValidatedUserIds so the two can be compared. -/
def specCollectedIds (m : Mem) : List JSVal :=
  (Factor.all.filter
      (fun f => m.validatedBiometrics.get f && (m.validatedUserIds.get f).isSome)).filterMap
    (fun f => m.validatedUserIds.get f)

/-
String-keyed model of the same module, needed to settle what the typeof
guard of line 92 does on factor names outside the closed set.  A JavaScript
state object is its list of own enumerable properties in insertion order;
plain objects additionally inherit the function-valued members of
Object.prototype, which are found by property reads (so typeof is not the
string undefined for their names) but are not enumerated by for..in,
Object.entries, Object.keys or Object.values and are not serialized by
JSON.stringify.
-/

/-- Own enumerable properties of a JavaScript object used as a map, in
insertion order. -/
def JSObj (V : Type) : Type := List (String × V)

instance {V : Type} [DecidableEq V] : DecidableEq (JSObj V) :=
  inferInstanceAs (DecidableEq (List (String × V)))

/-- Property names every plain object inherits from Object.prototype: for a
key in this list a property read yields the inherited member even when the
object has no such own property. -/
def objectPrototypeKeys : List String :=
  ["constructor", "hasOwnProperty", "isPrototypeOf", "propertyIsEnumerable",
   "toLocaleString", "toString", "valueOf", "__defineGetter__",
   "__defineSetter__", "__lookupGetter__", "__lookupSetter__", "__proto__"]

/-- Read of an own property. -/
def JSObj.getOwn {V : Type} : JSObj V → String → Option V
  | [], _ => none
  | (k, v) :: rest, key => if k = key then some v else JSObj.getOwn rest key

/-- The guard typeof obj[key] of line 92 on a module state object: the
result differs from the string undefined when the object has an own
property key or when key names an inherited Object.prototype member. -/
def JSObj.typeofDefined {V : Type} (o : JSObj V) (key : String) : Bool :=
  (o.getOwn key).isSome || decide (key ∈ objectPrototypeKeys)

/-- Truthiness of obj[key] on a boolean-valued state object: an own
property contributes its value; inherited Object.prototype members are
functions, hence truthy; an absent key reads as undefined, hence falsy. -/
def JSObj.truthy (o : JSObj Bool) (key : String) : Bool :=
  match o.getOwn key with
  | some b => b
  | none => decide (key ∈ objectPrototypeKeys)

/-- Property assignment obj[key] = v: overwrite the own property in place
when present, otherwise append a new own property that shadows any
inherited one.  The accessor behaviour of the special key __proto__ is not
modelled; no theorem below assigns to it. -/
def JSObj.setProp {V : Type} : JSObj V → String → V → JSObj V
  | [], key, v => [(key, v)]
  | (k, w) :: rest, key, v =>
    if k = key then (k, v) :: rest else (k, w) :: JSObj.setProp rest key v

/-- String-keyed module state: the three state objects, animationVisible,
the last JSON written to the three localStorage keys, and the
sessionStorage violation marker (its diagnostic payloads are modelled only
in the factor-level SessionStore). -/
structure JSSt where
  validatedBiometrics : JSObj Bool
  sessionValidations : JSObj Bool
  validatedUserIds : JSObj (Option JSVal)
  animationVisible : Bool
  storedBiometrics : Option (JSObj Bool)
  storedSession : Option (JSObj Bool)
  storedUserIds : Option (JSObj (Option JSVal))
  violation : Bool
deriving DecidableEq

/-- Insertion order of the object literals of lines 9-32. -/
def factorKeys : List String := ["face", "voice", "retina", "proximity"]

/-- Clean first-visit state in the string-keyed model. -/
def cleanJSSt : JSSt :=
  { validatedBiometrics := factorKeys.map (fun k => (k, false))
    sessionValidations := factorKeys.map (fun k => (k, false))
    validatedUserIds := factorKeys.map (fun k => (k, (none : Option JSVal)))
    animationVisible := false
    storedBiometrics := none
    storedSession := none
    storedUserIds := none
    violation := false }

/-- The id-collection of lines 41-43 in the string-keyed model:
Object.entries enumerates own properties only, while the read
validatedBiometrics[type] inside the filter goes through the prototype
chain. -/
def collectUserIdsJS (s : JSSt) : List JSVal :=
  s.validatedUserIds.filterMap
    (fun p => if s.validatedBiometrics.truthy p.1 && p.2.isSome then p.2 else none)

/-- The boolean result of doValidatedBiometricsMatchSameUser (lines 46-55)
in the string-keyed model. -/
def usersMatchJS (s : JSSt) : Bool :=
  match collectUserIdsJS s with
  | [] => true
  | [_] => true
  | first :: rest => (first :: rest).all (fun u => u.jsString == first.jsString)

/-- resetBiometricValidations (lines 219-248) in the string-keyed model:
the for..in loops zero every own property of the three objects, the zeroed
objects are persisted, and the violation marker is untouched. -/
def resetJS (s : JSSt) : JSSt :=
  let vb := s.validatedBiometrics.map (fun p => (p.1, false))
  let sv := s.sessionValidations.map (fun p => (p.1, false))
  let vu := s.validatedUserIds.map (fun p => (p.1, (none : Option JSVal)))
  { validatedBiometrics := vb
    sessionValidations := sv
    validatedUserIds := vu
    animationVisible := false
    storedBiometrics := some vb
    storedSession := some sv
    storedUserIds := some vu
    violation := s.violation }

/-- Result of the property read validatedUserIds[type] at line 344: an own
property holds a user id or null; otherwise a prototype key yields the
inherited member (one function object per name, so two reads under the same
name are strictly equal and reads under different names are not); otherwise
the read is undefined. -/
inductive JSIdLookup where
  | val : Option JSVal → JSIdLookup
  | protoFn : String → JSIdLookup
  | missingProp : JSIdLookup
deriving DecidableEq

/-- The read validatedUserIds[type] with prototype fallback. -/
def JSObj.idLookup (o : JSObj (Option JSVal)) (key : String) : JSIdLookup :=
  match o.getOwn key with
  | some v => .val v
  | none => if key ∈ objectPrototypeKeys then .protoFn key else .missingProp

/-- showCarDoorAnimation (lines 334-411, synchronous part) in the
string-keyed model: re-run the checker, compare the per-factor id reads
strictly against the first, and either record the violation, reset and
schedule the redirect (returning true), or mark the animation visible
(returning false). -/
def showCarDoorAnimationJS (s : JSSt) : JSSt × Bool :=
  let securityCheck := usersMatchJS s
  let s1 := if securityCheck then s else { s with violation := true }
  let validatedTypes := (s1.validatedBiometrics.filter (fun p => p.2)).map Prod.fst
  let ids := validatedTypes.map (fun t => s1.validatedUserIds.idLookup t)
  let strictMismatch := ids.any (fun id => id != ids.headD JSIdLookup.missingProp)
  if !securityCheck || strictMismatch then
    (resetJS { s1 with violation := true }, true)
  else
    ({ s1 with animationVisible := true }, false)

/-- Observable outcome of one string-keyed setBiometricValidated call;
unknownLogged is true exactly when the guard of line 92 failed and only the
error of line 214 was logged. -/
structure JSOutcome where
  unknownLogged : Bool
  animTriggered : Bool
  violationBranch : Bool
  redirectScheduled : Bool
deriving DecidableEq

/-- setBiometricValidated (lines 91-216) in the string-keyed model: the
typeof guard of line 92 admits both the four factor keys and every name
inherited from Object.prototype; inside the guard the body is the one
embedded factor-wise by setBiometricValidated above, acting on own
properties. -/
def setBiometricValidatedJS (s : JSSt) (type : String) (isValidated : Bool)
    (userId : Option JSVal) : JSSt × JSOutcome :=
  if s.validatedBiometrics.typeofDefined type then
    let isNewSessionValidation := !s.sessionValidations.truthy type && isValidated
    let vb := s.validatedBiometrics.setProp type isValidated
    let sv :=
      if isValidated then s.sessionValidations.setProp type true
      else s.sessionValidations
    let idsUpdated :=
      if isValidated then
        match userId with
        | some uid => (s.validatedUserIds.setProp type (some uid), true)
        | none => (s.validatedUserIds, false)
      else (s.validatedUserIds.setProp type (none : Option JSVal), true)
    let s1 : JSSt :=
      { s with
          validatedBiometrics := vb
          sessionValidations := sv
          validatedUserIds := idsUpdated.1
          storedBiometrics := some vb
          storedSession := some sv
          storedUserIds := if idsUpdated.2 then some idsUpdated.1 else s.storedUserIds }
    let validCount := (vb.filter (fun p => p.2)).length
    let sessionCount := (sv.filter (fun p => p.2)).length
    let doUsersMatch := usersMatchJS s1
    let s2 := if doUsersMatch then s1 else { s1 with violation := true }
    if decide (2 ≤ validCount) && !s2.animationVisible && isNewSessionValidation &&
        decide (2 ≤ sessionCount) && doUsersMatch then
      let shown := showCarDoorAnimationJS s2
      (shown.1, ⟨false, true, false, shown.2⟩)
    else if decide (2 ≤ validCount) && !doUsersMatch then
      (resetJS { s2 with violation := true }, ⟨false, false, true, true⟩)
    else
      (s2, ⟨false, false, false, false⟩)
  else
    (s, ⟨true, false, false, false⟩)

/-
Helper lemmas shared by the claim theorems below.
-/

theorem FMap.get_set_same {α : Type} (m : FMap α) (f : Factor) (v : α) :
    (m.set f v).get f = v := by
  cases f <;> rfl

theorem FMap.get_set_ne {α : Type} (m : FMap α) (f g : Factor) (v : α)
    (h : f ≠ g) : (m.set f v).get g = m.get g := by
  cases f <;> cases g <;> first | rfl | exact absurd rfl h

theorem applyValidation_animationVisible (m : Mem) (f : Factor) (b : Bool)
    (u : Option JSVal) :
    (applyValidation m f b u).animationVisible = m.animationVisible := by
  cases b <;> cases u <;> rfl

theorem doMatch_fst (s : St) :
    (doValidatedBiometricsMatchSameUser s).1 = usersMatchPure s.mem := by
  unfold doValidatedBiometricsMatchSameUser
  cases h : usersMatchPure s.mem <;> simp [h]

theorem doMatch_mem (s : St) :
    (doValidatedBiometricsMatchSameUser s).2.mem = s.mem := by
  unfold doValidatedBiometricsMatchSameUser
  cases h : usersMatchPure s.mem <;> simp [h]

theorem showCarDoor_mem (s : St) :
    (showCarDoorAnimation s).1.mem = { s.mem with animationVisible := true } ∨
    (showCarDoorAnimation s).1.mem = ⟨defaultFlags, defaultFlags, defaultUserIds, false⟩ := by
  simp only [showCarDoorAnimation]
  split
  · right
    rfl
  · left
    rw [doMatch_mem]

theorem JSObj.getOwn_eq_none {V : Type} (o : JSObj V) (key : String)
    (h : key ∉ o.map Prod.fst) : o.getOwn key = none := by
  induction o with
  | nil => rfl
  | cons p rest ih =>
    obtain ⟨k, v⟩ := p
    simp only [List.map_cons, List.mem_cons] at h
    push_neg at h
    have hk : ¬(k = key) := fun hh => h.1 hh.symm
    simp only [JSObj.getOwn, if_neg hk]
    exact ih h.2

/-- C1: the claim asserts that from a clean state, setValidated with the
numeric id 7 for face and the string id "7" for voice triggers no
security-violation flow anywhere, the ids being compared as strings.  In
the code the Consistency Checker does treat the two ids as one user and the
success branch fires, but showCarDoorAnimation's strict identity re-check
(line 348 compares with the strict inequality operator, no string
coercion) then records a violation, resets all state and schedules the
redirect — evaluated here on the exact scenario of the claim. -/
theorem c1_strict_recheck_fires_violation_on_numeric_vs_string :
    usersMatchPure (applyValidation
        (setBiometricValidated cleanState .face true (some (.num 7))).1.mem
        .voice true (some (.str "7"))) = true ∧
    (setBiometricValidated (setBiometricValidated cleanState .face true
        (some (.num 7))).1 .voice true (some (.str "7"))).2.animTriggered = true ∧
    (setBiometricValidated (setBiometricValidated cleanState .face true
        (some (.num 7))).1 .voice true (some (.str "7"))).2.animBlocked = true ∧
    (setBiometricValidated (setBiometricValidated cleanState .face true
        (some (.num 7))).1 .voice true (some (.str "7"))).2.redirectScheduled = true ∧
    (setBiometricValidated (setBiometricValidated cleanState .face true
        (some (.num 7))).1 .voice true (some (.str "7"))).1.sessionStore.violation = true ∧
    (setBiometricValidated (setBiometricValidated cleanState .face true
        (some (.num 7))).1 .voice true (some (.str "7"))).1.mem =
      ⟨defaultFlags, defaultFlags, defaultUserIds, false⟩ := by
  decide

/-- C4: the claim asserts the per-factor session validation flags live in
session-scoped storage and do not survive the browser session.  The code
writes them under the localStorage key sessionValidations (lines 18, 118,
240, 258, 271), so after the session ends and the page reloads the flag
set in the previous session is still present, both in the surviving
localStorage and in the re-initialized in-memory map. -/
theorem c4_session_flags_stored_in_localStorage_survive_session_end :
    (setBiometricValidated cleanState .face true
        (some (.str "1"))).1.localStore.sessionValidations =
      some (defaultFlags.set .face true) ∧
    (sessionEndAndReload (setBiometricValidated cleanState .face true
        (some (.str "1"))).1).mem.sessionValidations.get .face = true ∧
    (sessionEndAndReload (setBiometricValidated cleanState .face true
        (some (.str "1"))).1).localStore.sessionValidations =
      some (defaultFlags.set .face true) := by
  decide

/-- C8: resetAll zeroes every persistent record, every session flag, the
welcome marker, the animation-visibility flag and the cached user bundle,
and it is idempotent: a second call yields exactly the same state, both in
memory and in both stores, from any starting state. -/
theorem c8_resetAll_zeroes_state_and_is_idempotent (s : St) :
    resetBiometricValidations (resetBiometricValidations s) =
      resetBiometricValidations s ∧
    (resetBiometricValidations s).mem =
      ⟨defaultFlags, defaultFlags, defaultUserIds, false⟩ ∧
    (resetBiometricValidations s).localStore =
      ⟨some defaultFlags, some defaultFlags, some defaultUserIds, none⟩ ∧
    (resetBiometricValidations s).sessionStore.welcomeShown = false :=
  ⟨rfl, rfl, rfl, rfl⟩

/-- C10: the store-update step of setValidated with isValid true and a null
or omitted userId keeps the previously stored identifier of that factor
unchanged while setting its validated and session flags; only a non-null
userId overwrites the identifier, and only invalidation or a reset clears
it. -/
theorem c10_revalidation_without_id_inherits_stored_identity (m : Mem)
    (f : Factor) (u : JSVal) (h : m.validatedUserIds.get f = some u) :
    (applyValidation m f true none).validatedUserIds = m.validatedUserIds ∧
    (applyValidation m f true none).validatedUserIds.get f = some u ∧
    (applyValidation m f true none).validatedBiometrics.get f = true ∧
    (applyValidation m f true none).sessionValidations.get f = true ∧
    (∀ v : JSVal,
      (applyValidation m f true (some v)).validatedUserIds.get f = some v) ∧
    (∀ u2 : Option JSVal,
      (applyValidation m f false u2).validatedUserIds.get f = none) ∧
    (∀ s : St,
      (resetBiometricValidations s).mem.validatedUserIds.get f = none) := by
  refine ⟨rfl, h, ?_, ?_, ?_, ?_, ?_⟩
  · exact FMap.get_set_same m.validatedBiometrics f true
  · exact FMap.get_set_same m.sessionValidations f true
  · intro v
    exact FMap.get_set_same m.validatedUserIds f (some v)
  · intro u2
    exact FMap.get_set_same m.validatedUserIds f none
  · intro s
    cases f <;> rfl

/-- Witness for C10 at a concrete input: after face is validated for user
"5", re-validating face with no userId keeps the stored id "5". -/
theorem c10_witness :
    (applyValidation
        (setBiometricValidated cleanState .face true (some (.str "5"))).1.mem
        .face true none).validatedUserIds.get .face = some (JSVal.str "5") :=
  (c10_revalidation_without_id_inherits_stored_identity _ .face (.str "5")
    (by decide)).2.1

/-- C9 counterexample: the factor name toString lies outside the closed set
face/voice/retina/proximity, yet a setValidated call with it is not logged
as unknown (the typeof guard of line 92 finds the inherited
Object.prototype member) and does mutate the state: all three state
objects gain an own toString property, refuting the claim that every
factor outside the closed set leaves the state completely unchanged. -/
theorem c9_counterexample_prototype_key_mutates_state :
    "toString" ∉ factorKeys ∧
    (setBiometricValidatedJS cleanJSSt "toString" true
        (some (.str "99"))).2.unknownLogged = false ∧
    (setBiometricValidatedJS cleanJSSt "toString" true
        (some (.str "99"))).1 ≠ cleanJSSt ∧
    (setBiometricValidatedJS cleanJSSt "toString" true
        (some (.str "99"))).1.validatedBiometrics.getOwn "toString" = some true ∧
    (setBiometricValidatedJS cleanJSSt "toString" true
        (some (.str "99"))).1.validatedUserIds.getOwn "toString" =
      some (some (.str "99")) := by
  decide

/-- C9 (amended): for every input factor outside the closed set that is
also not a property name inherited from Object.prototype, and every state
whose validatedBiometrics object has its standard own keys, setValidated
leaves the entire state unchanged, triggers no animation and no violation
flow, and surfaces no exception — the only effect is the logged
unknown-type error.  (Factor names inherited from Object.prototype, such
as toString, instead pass the typeof guard and mutate the state.) -/
theorem c9_unknown_nonprototype_factor_is_noop (s : JSSt) (key : String)
    (b : Bool) (u : Option JSVal)
    (hown : s.validatedBiometrics.map Prod.fst = factorKeys)
    (hf : key ∉ factorKeys) (hp : key ∉ objectPrototypeKeys) :
    setBiometricValidatedJS s key b u = (s, ⟨true, false, false, false⟩) := by
  have hnone : s.validatedBiometrics.getOwn key = none := by
    apply JSObj.getOwn_eq_none
    rw [hown]
    exact hf
  simp [setBiometricValidatedJS, JSObj.typeofDefined, hnone, hp]

/-- Witness for C9 (amended) at a concrete input: the factor name
fingerprint, from the clean state. -/
theorem c9_unknown_nonprototype_factor_is_noop_witness :
    setBiometricValidatedJS cleanJSSt "fingerprint" true (some (.str "99")) =
      (cleanJSSt, ⟨true, false, false, false⟩) :=
  c9_unknown_nonprototype_factor_is_noop cleanJSSt "fingerprint" true
    (some (.str "99")) (by decide) (by decide) (by decide)

/-- C2: whenever a setValidated call completes with at least two validated
factors and the Consistency Checker reporting a mismatch on the updated
state, that call takes the security-violation branch: the violation marker
and the mismatched-id diagnostics are recorded in session-scoped storage,
the full reset leaves every factor unvalidated with a null user id in
memory and in the durable store, and the delayed redirect is scheduled. -/
theorem c2_mismatch_always_triggers_violation_flow (s : St) (f : Factor)
    (b : Bool) (u : Option JSVal)
    (h2 : 2 ≤ countValidatedBiometrics (applyValidation s.mem f b u))
    (hm : usersMatchPure (applyValidation s.mem f b u) = false) :
    (setBiometricValidated s f b u).2.violationBranch = true ∧
    (setBiometricValidated s f b u).2.redirectScheduled = true ∧
    (setBiometricValidated s f b u).1.sessionStore.violation = true ∧
    (setBiometricValidated s f b u).1.sessionStore.mismatchIds =
      some (collectValidatedUserIds (applyValidation s.mem f b u)) ∧
    (setBiometricValidated s f b u).1.sessionStore.violationDetails =
      some ((Factor.all.filter
          (fun g => (applyValidation s.mem f b u).validatedBiometrics.get g)).map
        (fun g => (g, (applyValidation s.mem f b u).validatedUserIds.get g))) ∧
    (setBiometricValidated s f b u).1.mem =
      ⟨defaultFlags, defaultFlags, defaultUserIds, false⟩ ∧
    (setBiometricValidated s f b u).1.localStore =
      ⟨some defaultFlags, some defaultFlags, some defaultUserIds, none⟩ := by
  simp [setBiometricValidated, doValidatedBiometricsMatchSameUser, hm, h2,
    resetBiometricValidations]

/-- Witness for C2 at the concrete scenario of the claim: face validated
for user "1", then voice for user "2"; the second call takes the
security-violation branch. -/
theorem c2_witness :
    (setBiometricValidated
        (setBiometricValidated cleanState .face true (some (.str "1"))).1
        .voice true (some (.str "2"))).2.violationBranch = true :=
  (c2_mismatch_always_triggers_violation_flow _ .voice true (some (.str "2"))
    (by decide) (by decide)).1

/-- C6: right after module initialization the page-load replay fires if and
only if PersistentState shows at least two validated factors, SessionState
shows at least two session-validated factors, and no animation is visible
(which always holds at initialization); in particular with fewer than two
session validations the replay never fires, whatever PersistentState
shows. -/
theorem c6_pageload_replay_iff (l : LocalStore) (ss : SessionStore) :
    (pageLoadShowsAnimation (moduleInit l ss) = true ↔
      2 ≤ countValidatedBiometrics (initialMem l) ∧
      2 ≤ countSessionValidations (initialMem l) ∧
      (moduleInit l ss).mem.animationVisible = false) ∧
    (countSessionValidations (initialMem l) < 2 →
      pageLoadShowsAnimation (moduleInit l ss) = false) := by
  constructor
  · simp [pageLoadShowsAnimation, moduleInit, initialMem, countValidatedBiometrics,
      countSessionValidations, and_comm]
  · intro h
    simp only [pageLoadShowsAnimation, moduleInit, initialMem]
    simp [countSessionValidations, initialMem] at h
    simp [Nat.not_le.mpr h]

/-- Witness for C6 at a concrete input: two factors validated for user "7"
in the durable store but no stored session validations; the replay does
not fire. -/
theorem c6_witness :
    pageLoadShowsAnimation (moduleInit
      ⟨some ⟨true, true, false, false⟩, none,
        some ⟨some (.str "7"), some (.str "7"), none, none⟩, none⟩
      emptySessionStore) = false :=
  (c6_pageload_replay_iff
    ⟨some ⟨true, true, false, false⟩, none,
      some ⟨some (.str "7"), some (.str "7"), none, none⟩, none⟩
    emptySessionStore).2 (by decide)

theorem filterMap_ite_eq_filter_filterMap (l : List Factor)
    (vb : Factor → Bool) (uid : Factor → Option JSVal) :
    l.filterMap (fun f => if vb f then uid f else none) =
      (l.filter (fun f => vb f && (uid f).isSome)).filterMap uid := by
  induction l with
  | nil => rfl
  | cons f rest ih =>
    cases hv : vb f
    · simp [List.filterMap_cons, List.filter_cons, hv, ih]
    · cases hu : uid f
      · simp [List.filterMap_cons, List.filter_cons, hv, hu, ih]
      · simp [List.filterMap_cons, List.filter_cons, hv, hu, ih]

/-- C7: the Consistency Checker collects exactly the ids described by the
spec (validated factors with non-null ids, all others ignored), returns
true whenever fewer than two ids were collected, and otherwise returns
true exactly when every collected id equals the first one after string
coercion. -/
theorem c7_checker_matches_spec_description (m : Mem) :
    collectValidatedUserIds m = specCollectedIds m ∧
    ((specCollectedIds m).length ≤ 1 → usersMatchPure m = true) ∧
    (∀ first rest, specCollectedIds m = first :: rest →
      (usersMatchPure m = true ↔
        ∀ u ∈ first :: rest, u.jsString = first.jsString)) := by
  have hc : collectValidatedUserIds m = specCollectedIds m :=
    filterMap_ite_eq_filter_filterMap Factor.all
      (fun f => m.validatedBiometrics.get f) (fun f => m.validatedUserIds.get f)
  have hm : usersMatchPure m =
      (match specCollectedIds m with
        | [] => true
        | [_] => true
        | first :: rest => (first :: rest).all
            (fun u => u.jsString == first.jsString)) := by
    unfold usersMatchPure
    rw [hc]
  refine ⟨hc, ?_, ?_⟩
  · intro hlen
    rw [hm]
    rcases hids : specCollectedIds m with _ | ⟨x, _ | ⟨y, tl⟩⟩
    · rfl
    · rfl
    · rw [hids] at hlen
      simp at hlen
  · intro first rest hids
    rw [hm, hids]
    cases rest with
    | nil => simp
    | cons y tl =>
      simp [List.all_eq_true]

/-- Witness for C7 at a concrete input: with a single validated factor the
checker returns true whatever the identifier. -/
theorem c7_witness :
    usersMatchPure
      ⟨⟨true, false, false, false⟩, defaultFlags,
        ⟨some (.str "1"), none, none, none⟩, false⟩ = true :=
  (c7_checker_matches_spec_description
    ⟨⟨true, false, false, false⟩, defaultFlags,
      ⟨some (.str "1"), none, none, none⟩, false⟩).2.1 (by decide)

theorem applyValidation_inv (m : Mem) (f : Factor) (b : Bool)
    (u : Option JSVal) (h : UserIdInvariant m) :
    UserIdInvariant (applyValidation m f b u) := by
  intro g
  cases b with
  | false =>
    by_cases hg : f = g
    · subst hg
      simp [applyValidation, FMap.get_set_same]
    · simp only [applyValidation]
      simp [FMap.get_set_ne _ _ _ _ hg]
      exact fun hs => h g hs
  | true =>
    cases u with
    | none =>
      by_cases hg : f = g
      · subst hg
        simp [applyValidation, FMap.get_set_same]
      · simp only [applyValidation]
        simp [FMap.get_set_ne _ _ _ _ hg]
        exact fun hs => h g hs
    | some v =>
      by_cases hg : f = g
      · subst hg
        simp [applyValidation, FMap.get_set_same]
      · simp only [applyValidation]
        simp [FMap.get_set_ne _ _ _ _ hg]
        exact fun hs => h g hs

theorem zeroMem_inv :
    UserIdInvariant ⟨defaultFlags, defaultFlags, defaultUserIds, false⟩ := by
  intro g hg
  cases g <;> simp [FMap.get, defaultUserIds, FMap.const] at hg

theorem showCarDoor_inv (s : St) (h : UserIdInvariant s.mem) :
    UserIdInvariant (showCarDoorAnimation s).1.mem := by
  rcases showCarDoor_mem s with heq | heq <;> rw [heq]
  · intro g hg
    exact h g hg
  · exact zeroMem_inv

/-- C5: the stored user id of a factor is non-null only while its validated
flag is true.  The invariant holds in the clean initial state, is preserved
by setValidated, resetAll and resetSessionOnly from any state satisfying
it, and setValidated with isValid false always leaves that factor's stored
user id null. -/
theorem c5_userId_only_when_validated :
    UserIdInvariant cleanState.mem ∧
    (∀ (s : St) (f : Factor) (b : Bool) (u : Option JSVal),
      UserIdInvariant s.mem →
        UserIdInvariant (setBiometricValidated s f b u).1.mem) ∧
    (∀ s : St, UserIdInvariant (resetBiometricValidations s).mem) ∧
    (∀ s : St, UserIdInvariant s.mem →
      UserIdInvariant (resetSessionValidations s).mem) ∧
    (∀ (s : St) (f : Factor) (u : Option JSVal),
      (setBiometricValidated s f false u).1.mem.validatedUserIds.get f = none) := by
  refine ⟨?_, ?_, ?_, ?_, ?_⟩
  · intro g hg
    cases g <;> simp [cleanState, moduleInit, initialMem, emptyLocalStore,
      FMap.get, defaultUserIds, FMap.const] at hg
  · intro s f b u h
    simp only [setBiometricValidated]
    split <;> split
    · apply showCarDoor_inv
      rw [doMatch_mem]
      exact applyValidation_inv s.mem f b u h
    · split
      · exact zeroMem_inv
      · rw [doMatch_mem]
        exact applyValidation_inv s.mem f b u h
    · apply showCarDoor_inv
      rw [doMatch_mem]
      exact applyValidation_inv s.mem f b u h
    · split
      · exact zeroMem_inv
      · rw [doMatch_mem]
        exact applyValidation_inv s.mem f b u h
  · intro s
    exact zeroMem_inv
  · intro s h g hg
    exact h g hg
  · intro s f u
    simp only [setBiometricValidated]
    split <;> split
    · rename_i hcond
      simp at hcond
    · split
      · cases f <;> rfl
      · rw [doMatch_mem]
        exact FMap.get_set_same _ f none
    · rename_i hcond
      simp at hcond
    · split
      · cases f <;> rfl
      · rw [doMatch_mem]
        exact FMap.get_set_same _ f none

/-- Witness for C5 at concrete inputs: the invariant after validating face
for user "9" from the clean state, and the cleared id after invalidating
face. -/
theorem c5_witness :
    UserIdInvariant
      (setBiometricValidated cleanState .face true (some (.str "9"))).1.mem ∧
    (setBiometricValidated cleanState .face false
      none).1.mem.validatedUserIds.get .face = none :=
  ⟨c5_userId_only_when_validated.2.1 cleanState .face true (some (.str "9"))
      c5_userId_only_when_validated.1,
    c5_userId_only_when_validated.2.2.2.2 cleanState .face none⟩

/-- C3: from a clean session, validating face then retina for user "42"
fires the success-animation trigger exactly once, on the second call; and
in general a setValidated call on a known factor invokes
showCarDoorAnimation exactly when, on the updated state, at least two
factors are validated, the animation is not currently visible, the call is
a new session validation for its factor, at least two session flags are
set, and the Consistency Checker returns true. -/
theorem c3_trigger_fires_iff_fresh_double_validation :
    (setBiometricValidated cleanState .face true
        (some (.str "42"))).2.animTriggered = false ∧
    (setBiometricValidated
        (setBiometricValidated cleanState .face true (some (.str "42"))).1
        .retina true (some (.str "42"))).2.animTriggered = true ∧
    ∀ (s : St) (f : Factor) (b : Bool) (u : Option JSVal),
      (setBiometricValidated s f b u).2.animTriggered =
        (decide (2 ≤ countValidatedBiometrics (applyValidation s.mem f b u)) &&
          !s.mem.animationVisible &&
          (!s.mem.sessionValidations.get f && b) &&
          decide (2 ≤ countSessionValidations (applyValidation s.mem f b u)) &&
          usersMatchPure (applyValidation s.mem f b u)) := by
  refine ⟨by decide, by decide, ?_⟩
  intro s f b u
  have hanim : (applyValidation s.mem f b u).animationVisible =
      s.mem.animationVisible := applyValidation_animationVisible s.mem f b u
  simp only [setBiometricValidated, doValidatedBiometricsMatchSameUser]
  cases hm : usersMatchPure (applyValidation s.mem f b u) with
  | false =>
    simp
    split <;> rfl
  | true =>
    simp [hanim]
    split <;> rename_i hP
    · obtain ⟨⟨⟨h1, h2⟩, h3, h4⟩, h5⟩ := hP
      subst h4
      simp [h1, h2, h3, h5]
    · symm
      rw [Bool.eq_false_iff]
      intro hR
      exact hP (by simpa using hR)

end BioSync
